import Mathlib

/- Verification model of chua_bn.py (MultiAssetTradingBot): a bot that
   monitors derivative positions and closes them under a tiered trailing
   take-profit / stop-loss policy.  Python floats are modelled as
   rationals; the per-symbol dictionaries highest_profits, current_tiers
   and the set detected_positions as functions on symbols; the exchange
   gateway as a boolean oracle saying whether a close order submission
   succeeds; and a raised Python exception as an error value that aborts
   the remainder of the cycle and the scheduler loop. -/

/-- Protection tier.  The source represents tiers as four fixed strings
(no tier, low protect, first trail, second trail). -/
inductive Tier where
  | none
  | lowProtect
  | firstTrail
  | secondTrail
  deriving DecidableEq, Repr

/-- The configuration fields read in MultiAssetTradingBot.__init__
(lines 16-25). -/
structure Config where
  stop_loss_pct : ℚ
  low_trail_stop_loss_pct : ℚ
  trail_stop_loss_pct : ℚ
  higher_trail_stop_loss_pct : ℚ
  low_trail_profit_threshold : ℚ
  first_trail_profit_threshold : ℚ
  second_trail_profit_threshold : ℚ
  blacklist : List String

/-- One entry of the position snapshot, with the fields monitor_positions
reads (lines 127-131).  side is optional: the code guards side is None. -/
structure Position where
  symbol : String
  positionAmt : ℚ
  entryPrice : ℚ
  markPrice : ℚ
  side : Option String

/-- The mutable per-symbol state of the bot (lines 60-62): dictionaries
highest_profits and current_tiers, and the set detected_positions. -/
structure BotState where
  highest_profits : String → Option ℚ
  current_tiers : String → Option Tier
  detected_positions : String → Bool

/-- The state right after __init__: empty dictionaries, empty set. -/
def initState : BotState :=
  ⟨fun _ => Option.none, fun _ => Option.none, fun _ => false⟩

/-- Observable effects of one step: log warnings, notifications, and the
create_order call made by close_position (symbol, order direction,
amount, and the side argument forwarded as positionSide). -/
inductive Event where
  | warnSideNone (symbol : String)
  | blacklistNote (symbol : String)
  | firstDetect (symbol : String)
  | tierCloseLog (symbol : String) (tier : Tier)
  | stopLossLog (symbol : String)
  | closeOrder (symbol : String) (orderSide : String) (amount : ℚ) (positionSide : String)
  | closeFail (symbol : String)
  deriving DecidableEq, Repr

/-- Result of running a step: err is some message when an uncaught
Python exception escaped, plus the new state and the emitted events. -/
structure StepResult where
  err : Option String
  state : BotState
  events : List Event

/-- Python str.lower(): lowercase every character. -/
def py_lower (s : String) : String := String.mk (s.data.map Char.toLower)

/-- Dictionary write d[k] = v. -/
def setOpt {α : Type} (m : String → Option α) (k : String) (v : α) :
    String → Option α :=
  fun s => if s = k then some v else m s

/-- Dictionary removal d.pop(k, None). -/
def popKey {α : Type} (m : String → Option α) (k : String) :
    String → Option α :=
  fun s => if s = k then Option.none else m s

/-- Set insertion (v = true) or discard (v = false). -/
def setFlag (m : String → Bool) (k : String) (v : Bool) : String → Bool :=
  fun s => if s = k then v else m s

/-- Tier classification from the stored peak (lines 165-172): an
if/elif chain with inclusive >= comparisons, higher tiers first. -/
def classify_tier (cfg : Config) (highest_profit : ℚ) : Tier :=
  if cfg.second_trail_profit_threshold ≤ highest_profit then Tier.secondTrail
  else if cfg.first_trail_profit_threshold ≤ highest_profit then Tier.firstTrail
  else if cfg.low_trail_profit_threshold ≤ highest_profit then Tier.lowProtect
  else Tier.none

/-- One observation of a profit percentage for a symbol (lines 159-174):
raise the peak if the new profit exceeds it, then reclassify the tier
from the (possibly raised) peak. -/
def update_peak_tier (cfg : Config) (highest_profit profit_pct : ℚ) : ℚ × Tier :=
  let hp := if highest_profit < profit_pct then profit_pct else highest_profit
  (hp, classify_tier cfg hp)

/-- The tier-dependent exit tests of lines 179-202; no branch matches
tier none, so it yields false there. -/
def tier_close_fires (cfg : Config) (tier : Tier) (profit_pct highest_profit : ℚ) : Bool :=
  match tier with
  | Tier.none => false
  | Tier.lowProtect => decide (profit_pct ≤ cfg.low_trail_stop_loss_pct)
  | Tier.firstTrail => decide (profit_pct ≤ highest_profit * (1 - cfg.trail_stop_loss_pct))
  | Tier.secondTrail => decide (profit_pct ≤ highest_profit * (1 - cfg.higher_trail_stop_loss_pct))

/-- close_position (lines 110-121): submit a MARKET order whose
direction is buy when the side argument equals "short" and sell
otherwise, forwarding the side argument as positionSide.  On success
return True and clear all three per-symbol records; on failure return
False and leave the state untouched. -/
def close_position (gw : String → Bool) (st : BotState) (symbol : String)
    (amount : ℚ) (side : String) : Bool × BotState × List Event :=
  let orderSide := if side = "short" then "buy" else "sell"
  if gw symbol then
    (true,
      { highest_profits := popKey st.highest_profits symbol,
        current_tiers := popKey st.current_tiers symbol,
        detected_positions := setFlag st.detected_positions symbol false },
      [Event.closeOrder symbol orderSide amount side])
  else
    (false, st, [Event.closeOrder symbol orderSide amount side, Event.closeFail symbol])

/-- The state effect of lines 159-174: write the raised peak into
highest_profits when the observation exceeds the stored peak, and
unconditionally write the reclassified tier into current_tiers. -/
def peak_tier_state (cfg : Config) (st : BotState) (symbol : String)
    (profit_pct : ℚ) : BotState :=
  let highest_profit0 := (st.highest_profits symbol).getD 0
  let pt := update_peak_tier cfg highest_profit0 profit_pct
  let stA := if highest_profit0 < profit_pct then
      { st with highest_profits := setOpt st.highest_profits symbol pt.1 }
    else st
  { stA with current_tiers := setOpt stA.current_tiers symbol pt.2 }

/-- Lines 159-206 of the loop body, after profit_pct has been computed:
peak update, tier reclassification, the tier-based exit checks (each
followed by continue when it closes), and otherwise the unconditional
stop-loss check.  On the stop-loss path the code passes the inverted
direction string as the side argument of close_position (line 206). -/
def after_profit (cfg : Config) (gw : String → Bool) (st : BotState) (evs : List Event)
    (symbol : String) (position_amt : ℚ) (side : String) (profit_pct : ℚ) : StepResult :=
  let highest_profit0 := (st.highest_profits symbol).getD 0
  let pt := update_peak_tier cfg highest_profit0 profit_pct
  let stB := peak_tier_state cfg st symbol profit_pct
  if tier_close_fires cfg pt.2 profit_pct pt.1 then
    let c := close_position gw stB symbol |position_amt| side
    ⟨Option.none, c.2.1, evs ++ [Event.tierCloseLog symbol pt.2] ++ c.2.2⟩
  else if profit_pct ≤ -cfg.stop_loss_pct then
    let c := close_position gw stB symbol |position_amt|
      (if side = "long" then "sell" else "buy")
    ⟨Option.none, c.2.1, evs ++ [Event.stopLossLog symbol] ++ c.2.2⟩
  else ⟨Option.none, stB, evs⟩

/-- The first-detection initialisation of lines 145-148: mark the
symbol detected, set its stored peak to 0 and its tier to none. -/
def freshInit (st : BotState) (symbol : String) : BotState :=
  { highest_profits := setOpt st.highest_profits symbol 0,
    current_tiers := setOpt st.current_tiers symbol Tier.none,
    detected_positions := setFlag st.detected_positions symbol true }

/-- One iteration of the monitor loop body (lines 126-206) for a single
position: skip with a warning when side is None; skip blacklisted
symbols with a one-time notification; first-detection initialisation;
profit computation (err = some "ZeroDivisionError" when entryPrice is 0,
as Python raises there); then the exit evaluation. -/
def process_position (cfg : Config) (gw : String → Bool) (st : BotState)
    (p : Position) : StepResult :=
  match p.side with
  | Option.none => ⟨Option.none, st, [Event.warnSideNone p.symbol]⟩
  | some side0 =>
    let symbol := p.symbol
    let side := py_lower side0
    if symbol ∈ cfg.blacklist then
      if st.detected_positions symbol then ⟨Option.none, st, []⟩
      else
        ⟨Option.none,
          { st with detected_positions := setFlag st.detected_positions symbol true },
          [Event.blacklistNote symbol]⟩
    else
      let d := st.detected_positions symbol
      let st1 := if d then st else freshInit st symbol
      let evs : List Event := if d then [] else [Event.firstDetect symbol]
      if side = "long" ∨ side = "short" then
        if p.entryPrice = 0 then ⟨some "ZeroDivisionError", st1, evs⟩
        else
          let profit_pct := if side = "long" then
              (p.markPrice - p.entryPrice) / p.entryPrice * 100
            else (p.entryPrice - p.markPrice) / p.entryPrice * 100
          after_profit cfg gw st1 evs symbol p.positionAmt side profit_pct
      else ⟨Option.none, st1, evs⟩

/-- monitor_positions (lines 123-206) over one snapshot: process the
positions in order; an uncaught per-position error aborts the rest of
the cycle, since the Python for-loop has no per-symbol handler. -/
def run_cycle (cfg : Config) (gw : String → Bool) :
    BotState → List Position → StepResult
  | st, [] => ⟨Option.none, st, []⟩
  | st, p :: rest =>
    let r := process_position cfg gw st p
    match r.err with
    | some e => ⟨some e, r.state, r.events⟩
    | Option.none =>
      let r2 := run_cycle cfg gw r.state rest
      ⟨r2.err, r2.state, r.events ++ r2.events⟩

/-- schedule_task (lines 83-95): run cycle after cycle; an exception
escaping a cycle terminates the whole loop (the process exits after a
final log and notification). -/
def schedule_task (cfg : Config) :
    BotState → List ((String → Bool) × List Position) → StepResult
  | st, [] => ⟨Option.none, st, []⟩
  | st, c :: rest =>
    let r := run_cycle cfg c.1 st c.2
    match r.err with
    | some e => ⟨some e, r.state, r.events⟩
    | Option.none =>
      let r2 := schedule_task cfg r.state rest
      ⟨r2.err, r2.state, r.events ++ r2.events⟩

/-- The per-symbol stored (peak, tier) pair after a sequence of profit
observations, applying lines 159-174 once per observation.  A freshly
detected symbol starts at (0, Tier.none) (lines 147-148). -/
def observe_seq (cfg : Config) : ℚ × Tier → List ℚ → ℚ × Tier
  | s, [] => s
  | s, q :: rest => observe_seq cfg (update_peak_tier cfg s.1 q) rest

/-- The ordering none < lowProtect < firstTrail < secondTrail. -/
def tierRank : Tier → ℕ
  | Tier.none => 0
  | Tier.lowProtect => 1
  | Tier.firstTrail => 2
  | Tier.secondTrail => 3

/-- Recognise a create_order call for a given symbol. -/
def isCloseOrderFor (symbol : String) : Event → Bool
  | Event.closeOrder s _ _ _ => s == symbol
  | _ => false

/-- Recognise the tier-triggered close log for a given symbol. -/
def isTierCloseFor (symbol : String) : Event → Bool
  | Event.tierCloseLog s _ => s == symbol
  | _ => false

/-- Recognise the stop-loss close log for a given symbol. -/
def isStopLossFor (symbol : String) : Event → Bool
  | Event.stopLossLog s => s == symbol
  | _ => false

/-- Recognise the one-time blacklist notification for a given symbol. -/
def isNoteFor (symbol : String) : Event → Bool
  | Event.blacklistNote s => s == symbol
  | _ => false

/-- Count events matched by a recogniser. -/
def countEv (f : Event → Bool) (evs : List Event) : ℕ := evs.countP f

/-- How many one-time blacklist notifications for s may still be
emitted: 1 before s is in detected_positions, 0 afterwards. -/
def noteBudget (st : BotState) (s : String) : ℕ :=
  if st.detected_positions s then 0 else 1

/-- Sample configuration: tier thresholds 2 / 5 / 10, low-protect floor
1, give-back fractions 1/2 and 1/5, absolute stop-loss 3. -/
def cfg0 : Config :=
  { stop_loss_pct := 3
    low_trail_stop_loss_pct := 1
    trail_stop_loss_pct := 1/2
    higher_trail_stop_loss_pct := 1/5
    low_trail_profit_threshold := 2
    first_trail_profit_threshold := 5
    second_trail_profit_threshold := 10
    blacklist := [] }

/-- Like cfg0 but with a huge absolute stop-loss, so that nothing
closes on the tested trajectories. -/
def cfgHold : Config :=
  { stop_loss_pct := 50
    low_trail_stop_loss_pct := 1
    trail_stop_loss_pct := 1/2
    higher_trail_stop_loss_pct := 1/5
    low_trail_profit_threshold := 2
    first_trail_profit_threshold := 5
    second_trail_profit_threshold := 10
    blacklist := [] }

/-- Like cfg0 but with a negative low tier threshold (the configuration
contract only requires the three thresholds to be increasing). -/
def cfgNegLow : Config :=
  { stop_loss_pct := 3
    low_trail_stop_loss_pct := 1
    trail_stop_loss_pct := 1/2
    higher_trail_stop_loss_pct := 1/5
    low_trail_profit_threshold := -5
    first_trail_profit_threshold := 5
    second_trail_profit_threshold := 10
    blacklist := [] }

/-- Like cfg0 but with XRPUSDT blacklisted. -/
def cfgBlk : Config :=
  { cfg0 with blacklist := ["XRPUSDT"] }

/-- Gateway oracle on which every close order succeeds. -/
def gwT : String → Bool := fun _ => true

/-- Gateway oracle on which every close order fails. -/
def gwF : String → Bool := fun _ => false

/-- A short position 20 percent in the red: entry 100, mark 120. -/
def posShort : Position :=
  { symbol := "ETHUSDT", positionAmt := -5, entryPrice := 100, markPrice := 120,
    side := some "short" }

/-- A malformed position: entry price 0 (Python: float division by 0). -/
def posZero : Position :=
  { symbol := "AAAUSDT", positionAmt := 2, entryPrice := 0, markPrice := 50,
    side := some "long" }

/-- A healthy long position 4 percent in profit. -/
def posGood : Position :=
  { symbol := "BBBUSDT", positionAmt := 1, entryPrice := 100, markPrice := 104,
    side := some "long" }

/-- A long position 1 percent in the red: entry 100, mark 99. -/
def posLoss : Position :=
  { symbol := "BTCUSDT", positionAmt := 1, entryPrice := 100, markPrice := 99,
    side := some "long" }

/-- A profitable long position on the blacklisted symbol of cfgBlk. -/
def posBlk : Position :=
  { symbol := "XRPUSDT", positionAmt := 3, entryPrice := 10, markPrice := 20,
    side := some "long" }

/-- A long position 10 percent in the red: entry 100, mark 90. -/
def posDrop : Position :=
  { symbol := "BTCUSDT", positionAmt := 1, entryPrice := 100, markPrice := 90,
    side := some "long" }

/-- A malformed position with an undefined side. -/
def posNoSide : Position :=
  { symbol := "CCCUSDT", positionAmt := 4, entryPrice := 100, markPrice := 90,
    side := Option.none }

/-- A bot state that already tracks BTCUSDT with peak 7 in tier
firstTrail. -/
def stSample : BotState :=
  { highest_profits := setOpt (fun _ => Option.none) "BTCUSDT" 7
    current_tiers := setOpt (fun _ => Option.none) "BTCUSDT" Tier.firstTrail
    detected_positions := setFlag (fun _ => false) "BTCUSDT" true }

/- ------------------------------------------------------------------ -/
/- Helper lemmas.                                                      -/
/- ------------------------------------------------------------------ -/

theorem setOpt_self {α : Type} (m : String → Option α) (k : String) (v : α) :
    setOpt m k v k = some v := by
  simp [setOpt]

theorem setOpt_other {α : Type} (m : String → Option α) (k : String) (v : α)
    (s : String) (h : s ≠ k) : setOpt m k v s = m s := by
  simp [setOpt, h]

theorem popKey_self {α : Type} (m : String → Option α) (k : String) :
    popKey m k k = Option.none := by
  simp [popKey]

theorem popKey_other {α : Type} (m : String → Option α) (k : String)
    (s : String) (h : s ≠ k) : popKey m k s = m s := by
  simp [popKey, h]

theorem setFlag_self (m : String → Bool) (k : String) (v : Bool) :
    setFlag m k v k = v := by
  simp [setFlag]

theorem setFlag_other (m : String → Bool) (k : String) (v : Bool)
    (s : String) (h : s ≠ k) : setFlag m k v s = m s := by
  simp [setFlag, h]

/-- The peak update of lines 159-162 computes the maximum of the stored
peak and the new observation. -/
theorem update_peak_tier_fst (cfg : Config) (a p : ℚ) :
    (update_peak_tier cfg a p).1 = max a p := by
  rcases le_or_lt p a with h | h
  · simp [update_peak_tier, not_lt.2 h, max_eq_left h]
  · simp [update_peak_tier, h, max_eq_right h.le]

/-- After an observation the stored tier is the classification of the
stored peak. -/
theorem update_peak_tier_snd (cfg : Config) (a p : ℚ) :
    (update_peak_tier cfg a p).2 = classify_tier cfg (update_peak_tier cfg a p).1 := rfl

/-- The stored peak after a sequence of observations is the running
maximum starting from the initial stored peak. -/
theorem observe_seq_fst (cfg : Config) :
    ∀ (l : List ℚ) (s : ℚ × Tier), (observe_seq cfg s l).1 = l.foldl max s.1
  | [], s => rfl
  | q :: rest, s => by
    rw [observe_seq, observe_seq_fst cfg rest, update_peak_tier_fst, List.foldl_cons]

/-- After at least one observation, the stored tier is the
classification of the stored peak. -/
theorem observe_seq_snd (cfg : Config) :
    ∀ (l : List ℚ) (s : ℚ × Tier), l ≠ [] →
      (observe_seq cfg s l).2 = classify_tier cfg (observe_seq cfg s l).1
  | [], _, h => absurd rfl h
  | [_], _, _ => by
    simp only [observe_seq]
    exact update_peak_tier_snd _ _ _
  | _ :: a :: as, s, _ => by
    rw [observe_seq]
    exact observe_seq_snd cfg (a :: as) _ (by simp)

theorem foldl_max_init_le : ∀ (l : List ℚ) (a : ℚ), a ≤ l.foldl max a
  | [], a => le_refl a
  | q :: rest, a => le_trans (le_max_left a q) (foldl_max_init_le rest (max a q))

theorem foldl_max_mono : ∀ (l : List ℚ) {a b : ℚ}, a ≤ b →
    l.foldl max a ≤ l.foldl max b
  | [], _, _, h => h
  | q :: rest, a, b, h =>
    foldl_max_mono rest (max_le_max h (le_refl q))

theorem foldl_max_zero_of_neg :
    ∀ (l : List ℚ), (∀ x ∈ l, x < 0) → l.foldl max 0 = 0
  | [], _ => rfl
  | q :: rest, h => by
    have hq : q ≤ 0 := (h q (by simp)).le
    rw [List.foldl_cons, max_eq_left hq]
    exact foldl_max_zero_of_neg rest (fun x hx => h x (by simp [hx]))

/-- Full characterisation of the classifier under increasing
thresholds. -/
theorem classify_tier_iff (cfg : Config)
    (h1 : cfg.low_trail_profit_threshold < cfg.first_trail_profit_threshold)
    (h2 : cfg.first_trail_profit_threshold < cfg.second_trail_profit_threshold)
    (hp : ℚ) :
    (classify_tier cfg hp = Tier.secondTrail ↔
      cfg.second_trail_profit_threshold ≤ hp) ∧
    (classify_tier cfg hp = Tier.firstTrail ↔
      cfg.first_trail_profit_threshold ≤ hp ∧ hp < cfg.second_trail_profit_threshold) ∧
    (classify_tier cfg hp = Tier.lowProtect ↔
      cfg.low_trail_profit_threshold ≤ hp ∧ hp < cfg.first_trail_profit_threshold) ∧
    (classify_tier cfg hp = Tier.none ↔ hp < cfg.low_trail_profit_threshold) := by
  unfold classify_tier
  split_ifs with hA hB hC <;>
    refine ⟨?_, ?_, ?_, ?_⟩ <;> constructor <;> intro h <;>
    first
      | linarith
      | rfl
      | exact absurd h (by decide)
      | exact ⟨by linarith, by linarith⟩
      | (exfalso; rcases h with ⟨hx, hy⟩; linarith)
      | (exfalso; exact Tier.noConfusion h)

/-- The classifier is monotone in the peak with respect to the tier
order none < lowProtect < firstTrail < secondTrail, for any
thresholds. -/
theorem tierRank_classify_mono (cfg : Config) {a b : ℚ} (h : a ≤ b) :
    tierRank (classify_tier cfg a) ≤ tierRank (classify_tier cfg b) := by
  unfold classify_tier
  split_ifs <;> first | decide | linarith | (exfalso; linarith)

/- ------------------------------------------------------------------ -/
/- Claims.                                                             -/
/- ------------------------------------------------------------------ -/

unseal Rat.mul Rat.add Rat.sub Rat.inv in
/-- C1, counterexample: one monitoring cycle on a long position with
entry 100 and mark 99 observes the single profit percentage -1, yet
the stored highestProfitPct afterwards is 0, not the maximum -1 of the
observed sequence (the peak starts at 0 on detection and is only ever
raised).  So the claimed invariant fails as stated. -/
theorem peak_not_max_of_observed :
    ((posLoss.markPrice - posLoss.entryPrice) / posLoss.entryPrice * 100 = (-1 : ℚ)) ∧
    (run_cycle cfgHold gwT initState [posLoss]).state.highest_profits "BTCUSDT" = some 0 ∧
    (run_cycle cfgHold gwT initState [posLoss]).state.current_tiers "BTCUSDT" =
      some Tier.none ∧
    (0 : ℚ) ≠ -1 := by decide

/-- C1, amended: after any nonempty sequence of observed profit
percentages, the stored highestProfitPct equals the maximum of 0 and
all observed values (the running maximum seeded with the initial peak
0), and the stored tier is the classification of that stored peak. -/
theorem peak_is_seeded_max_and_tier_fresh (cfg : Config) (l : List ℚ) (h : l ≠ []) :
    (observe_seq cfg (0, Tier.none) l).1 = l.foldl max 0 ∧
    (observe_seq cfg (0, Tier.none) l).2 = classify_tier cfg (l.foldl max 0) := by
  have h1 := observe_seq_fst cfg l (0, Tier.none)
  have h2 := observe_seq_snd cfg l (0, Tier.none) h
  exact ⟨h1, by rw [h2, h1]⟩

/-- C1, amended, witness at the sequence [3, -1] under cfg0. -/
theorem peak_is_seeded_max_and_tier_fresh_witness :
    (observe_seq cfg0 (0, Tier.none) [3, -1]).1 = 3 ∧
    (observe_seq cfg0 (0, Tier.none) [3, -1]).2 = Tier.lowProtect := by
  have h := peak_is_seeded_max_and_tier_fresh cfg0 [3, -1] (by decide)
  exact ⟨h.1.trans (by decide), h.2.trans (by decide)⟩

/-- C5: under increasing thresholds the classifier returns secondTrail
exactly on peaks at or above the second threshold, firstTrail exactly
between the first (inclusive) and second (exclusive) thresholds,
lowProtect exactly between the low (inclusive) and first (exclusive)
thresholds, and none exactly below the low threshold; boundary values
get the higher tier since all comparisons are inclusive. -/
theorem classifier_thresholds (cfg : Config)
    (h1 : cfg.low_trail_profit_threshold < cfg.first_trail_profit_threshold)
    (h2 : cfg.first_trail_profit_threshold < cfg.second_trail_profit_threshold)
    (hp : ℚ) :
    (classify_tier cfg hp = Tier.secondTrail ↔
      cfg.second_trail_profit_threshold ≤ hp) ∧
    (classify_tier cfg hp = Tier.firstTrail ↔
      cfg.first_trail_profit_threshold ≤ hp ∧
        hp < cfg.second_trail_profit_threshold) ∧
    (classify_tier cfg hp = Tier.lowProtect ↔
      cfg.low_trail_profit_threshold ≤ hp ∧
        hp < cfg.first_trail_profit_threshold) ∧
    (classify_tier cfg hp = Tier.none ↔ hp < cfg.low_trail_profit_threshold) :=
  classify_tier_iff cfg h1 h2 hp

/-- C5, witness: boundary values under cfg0 get the higher tier, and a
peak below every threshold gets no tier. -/
theorem classifier_thresholds_witness :
    classify_tier cfg0 10 = Tier.secondTrail ∧
    classify_tier cfg0 5 = Tier.firstTrail ∧
    classify_tier cfg0 2 = Tier.lowProtect ∧
    classify_tier cfg0 1 = Tier.none := by
  refine ⟨((classifier_thresholds cfg0 (by decide) (by decide) 10).1).mpr (by decide),
    ((classifier_thresholds cfg0 (by decide) (by decide) 5).2.1).mpr (by decide),
    ((classifier_thresholds cfg0 (by decide) (by decide) 2).2.2.1).mpr (by decide),
    ((classifier_thresholds cfg0 (by decide) (by decide) 1).2.2.2).mpr (by decide)⟩

/-- C9: for a continuously monitored symbol the stored peak never
decreases as more profit percentages are observed, and therefore the
stored tier is monotonically non-decreasing in the order
none < lowProtect < firstTrail < secondTrail. -/
theorem tier_monotone_in_observations (cfg : Config) (l extra : List ℚ) :
    (observe_seq cfg (0, Tier.none) l).1 ≤
      (observe_seq cfg (0, Tier.none) (l ++ extra)).1 ∧
    tierRank (observe_seq cfg (0, Tier.none) l).2 ≤
      tierRank (observe_seq cfg (0, Tier.none) (l ++ extra)).2 := by
  have hpeak : (observe_seq cfg (0, Tier.none) l).1 ≤
      (observe_seq cfg (0, Tier.none) (l ++ extra)).1 := by
    rw [observe_seq_fst cfg l, observe_seq_fst cfg (l ++ extra), List.foldl_append]
    exact foldl_max_init_le extra _
  refine ⟨hpeak, ?_⟩
  cases l with
  | nil => exact Nat.zero_le _
  | cons q rest =>
    rw [observe_seq_snd cfg (q :: rest) _ (by simp),
      observe_seq_snd cfg ((q :: rest) ++ extra) _ (by simp)]
    exact tierRank_classify_mono cfg hpeak

/-- C10, counterexample: with an increasing threshold configuration
whose low threshold is negative, the all-negative observation sequence
[-1] leaves the stored peak at 0 but classifies the tier as lowProtect,
not none; so "the tier remains None" fails as stated. -/
theorem negative_sequence_tier_cex :
    observe_seq cfgNegLow (0, Tier.none) [-1] = (0, Tier.lowProtect) ∧
    Tier.lowProtect ≠ Tier.none := by decide

/-- C10, amended: the stored peak is never negative; on an all-negative
observation sequence it stays 0, and the tier stays none provided that
the low threshold is positive and the thresholds increase. -/
theorem peak_nonneg_negative_sequence (cfg : Config) (l : List ℚ) :
    0 ≤ (observe_seq cfg (0, Tier.none) l).1 ∧
    ((∀ x ∈ l, x < 0) →
      (observe_seq cfg (0, Tier.none) l).1 = 0 ∧
      (0 < cfg.low_trail_profit_threshold →
        cfg.low_trail_profit_threshold < cfg.first_trail_profit_threshold →
        cfg.first_trail_profit_threshold < cfg.second_trail_profit_threshold →
        (observe_seq cfg (0, Tier.none) l).2 = Tier.none)) := by
  constructor
  · rw [observe_seq_fst]
    exact foldl_max_init_le l 0
  · intro hneg
    have hz : (observe_seq cfg (0, Tier.none) l).1 = 0 := by
      rw [observe_seq_fst]
      exact foldl_max_zero_of_neg l hneg
    refine ⟨hz, fun hl h1 h2 => ?_⟩
    cases l with
    | nil => rfl
    | cons q rest =>
      rw [observe_seq_snd cfg (q :: rest) _ (by simp), hz]
      exact ((classify_tier_iff cfg h1 h2 0).2.2.2).mpr hl

/-- C10, amended, witness at the all-negative sequence [-1, -2] under
cfg0. -/
theorem peak_nonneg_negative_sequence_witness :
    (observe_seq cfg0 (0, Tier.none) [-1, -2]).1 = 0 ∧
    (observe_seq cfg0 (0, Tier.none) [-1, -2]).2 = Tier.none := by
  have h := peak_nonneg_negative_sequence cfg0 [-1, -2]
  have hneg : ∀ x ∈ [(-1 : ℚ), -2], x < 0 := by decide
  exact ⟨(h.2 hneg).1, (h.2 hneg).2 (by decide) (by decide) (by decide)⟩

/- Frame and counting lemmas about the exit path. -/

theorem close_position_counts (gw : String → Bool) (st : BotState) (symbol : String)
    (amount : ℚ) (side : String) :
    countEv (isCloseOrderFor symbol) (close_position gw st symbol amount side).2.2 = 1 ∧
    countEv (isTierCloseFor symbol) (close_position gw st symbol amount side).2.2 = 0 ∧
    countEv (isStopLossFor symbol) (close_position gw st symbol amount side).2.2 = 0 := by
  unfold close_position
  split <;> split <;> simp [countEv, isCloseOrderFor, isTierCloseFor, isStopLossFor]

theorem close_position_frame (gw : String → Bool) (st : BotState) (symbol : String)
    (amount : ℚ) (side : String) (s : String) (h : s ≠ symbol) :
    (close_position gw st symbol amount side).2.1.highest_profits s = st.highest_profits s ∧
    (close_position gw st symbol amount side).2.1.current_tiers s = st.current_tiers s ∧
    (close_position gw st symbol amount side).2.1.detected_positions s =
      st.detected_positions s ∧
    countEv (isNoteFor s) (close_position gw st symbol amount side).2.2 = 0 ∧
    countEv (isCloseOrderFor s) (close_position gw st symbol amount side).2.2 = 0 := by
  unfold close_position
  split <;> split <;>
    simp [countEv, isNoteFor, isCloseOrderFor, popKey, setFlag, h, Ne.symm h]

theorem peak_tier_state_frame (cfg : Config) (st : BotState) (symbol : String)
    (profit : ℚ) (s : String) (h : s ≠ symbol) :
    (peak_tier_state cfg st symbol profit).highest_profits s = st.highest_profits s ∧
    (peak_tier_state cfg st symbol profit).current_tiers s = st.current_tiers s ∧
    (peak_tier_state cfg st symbol profit).detected_positions s =
      st.detected_positions s := by
  simp only [peak_tier_state]
  split <;> simp [setOpt, h]

theorem freshInit_frame (st : BotState) (symbol : String) (s : String) (h : s ≠ symbol) :
    (freshInit st symbol).highest_profits s = st.highest_profits s ∧
    (freshInit st symbol).current_tiers s = st.current_tiers s ∧
    (freshInit st symbol).detected_positions s = st.detected_positions s := by
  simp [freshInit, setOpt, setFlag, h]

theorem after_profit_frame (cfg : Config) (gw : String → Bool) (st : BotState)
    (evs : List Event) (symbol : String) (amt : ℚ) (side : String) (profit : ℚ)
    (s : String) (h : s ≠ symbol) :
    (after_profit cfg gw st evs symbol amt side profit).state.highest_profits s =
      st.highest_profits s ∧
    (after_profit cfg gw st evs symbol amt side profit).state.current_tiers s =
      st.current_tiers s ∧
    (after_profit cfg gw st evs symbol amt side profit).state.detected_positions s =
      st.detected_positions s ∧
    countEv (isNoteFor s) (after_profit cfg gw st evs symbol amt side profit).events =
      countEv (isNoteFor s) evs ∧
    countEv (isCloseOrderFor s) (after_profit cfg gw st evs symbol amt side profit).events =
      countEv (isCloseOrderFor s) evs := by
  have hps := peak_tier_state_frame cfg st symbol profit s h
  have hc1 := close_position_frame gw (peak_tier_state cfg st symbol profit) symbol
    |amt| side s h
  have hc2 := close_position_frame gw (peak_tier_state cfg st symbol profit) symbol
    |amt| (if side = "long" then "sell" else "buy") s h
  simp only [after_profit]
  split_ifs <;>
    simp_all [countEv, List.countP_append, isNoteFor, isCloseOrderFor]

theorem after_profit_keeps_events (cfg : Config) (gw : String → Bool) (st : BotState)
    (evs : List Event) (symbol : String) (amt : ℚ) (side : String) (profit : ℚ)
    (e : Event) (he : e ∈ evs) :
    e ∈ (after_profit cfg gw st evs symbol amt side profit).events := by
  simp only [after_profit]
  split_ifs <;> simp [he]

theorem process_position_frame (cfg : Config) (gw : String → Bool) (st : BotState)
    (p : Position) (s : String) (h : s ≠ p.symbol) :
    (process_position cfg gw st p).state.highest_profits s = st.highest_profits s ∧
    (process_position cfg gw st p).state.current_tiers s = st.current_tiers s ∧
    (process_position cfg gw st p).state.detected_positions s = st.detected_positions s ∧
    countEv (isNoteFor s) (process_position cfg gw st p).events = 0 ∧
    countEv (isCloseOrderFor s) (process_position cfg gw st p).events = 0 := by
  cases hside : p.side with
  | none => simp [process_position, hside, countEv, isNoteFor, isCloseOrderFor]
  | some sd =>
    simp only [process_position, hside]
    by_cases hbl : p.symbol ∈ cfg.blacklist
    · by_cases hdet : st.detected_positions p.symbol = true
      · simp [hbl, hdet, countEv, isNoteFor, isCloseOrderFor]
      · simp [hbl, hdet, countEv, isNoteFor, isCloseOrderFor, setFlag, h, Ne.symm h]
    · rw [if_neg hbl]
      generalize (if py_lower sd = "long" then
          (p.markPrice - p.entryPrice) / p.entryPrice * 100
        else (p.entryPrice - p.markPrice) / p.entryPrice * 100) = profit
      by_cases hdet : st.detected_positions p.symbol = true
      · rw [if_pos hdet, if_pos hdet]
        split_ifs with hls hz
        · simp [countEv, isNoteFor, isCloseOrderFor]
        · obtain ⟨ha1, ha2, ha3, ha4, ha5⟩ :=
            after_profit_frame cfg gw st [] p.symbol p.positionAmt (py_lower sd)
              profit s h
          exact ⟨ha1, ha2, ha3, by rw [ha4]; simp [countEv],
            by rw [ha5]; simp [countEv]⟩
        · simp [countEv, isNoteFor, isCloseOrderFor]
      · obtain ⟨hf1, hf2, hf3⟩ := freshInit_frame st p.symbol s h
        rw [if_neg hdet, if_neg hdet]
        split_ifs with hls hz
        · simp [countEv, isNoteFor, isCloseOrderFor, hf1, hf2, hf3]
        · obtain ⟨ha1, ha2, ha3, ha4, ha5⟩ :=
            after_profit_frame cfg gw (freshInit st p.symbol)
              [Event.firstDetect p.symbol] p.symbol p.positionAmt (py_lower sd)
              profit s h
          exact ⟨ha1.trans hf1, ha2.trans hf2, ha3.trans hf3,
            by rw [ha4]; simp [countEv, isNoteFor],
            by rw [ha5]; simp [countEv, isCloseOrderFor]⟩
        · simp [countEv, isNoteFor, isCloseOrderFor, hf1, hf2, hf3]

theorem process_blacklist_inv (cfg : Config) (gw : String → Bool) (st : BotState)
    (p : Position) (s : String) (hb : s ∈ cfg.blacklist) :
    countEv (isCloseOrderFor s) (process_position cfg gw st p).events = 0 ∧
    (process_position cfg gw st p).state.highest_profits s = st.highest_profits s ∧
    (process_position cfg gw st p).state.current_tiers s = st.current_tiers s ∧
    countEv (isNoteFor s) (process_position cfg gw st p).events +
      noteBudget (process_position cfg gw st p).state s ≤ noteBudget st s := by
  by_cases hps : p.symbol = s
  · subst hps
    cases hside : p.side with
    | none =>
      simp [process_position, hside, countEv, isNoteFor, isCloseOrderFor, noteBudget]
    | some sd =>
      by_cases hdet : st.detected_positions p.symbol = true
      · simp [process_position, hside, hb, hdet, countEv, isNoteFor, isCloseOrderFor,
          noteBudget]
      · simp [process_position, hside, hb, hdet, countEv, isNoteFor, isCloseOrderFor,
          noteBudget, setFlag]
  · have hsym : s ≠ p.symbol := fun hh => hps hh.symm
    obtain ⟨h1, h2, h3, h4, h5⟩ := process_position_frame cfg gw st p s hsym
    refine ⟨h5, h1, h2, ?_⟩
    rw [h4]
    simp [noteBudget, h3]

theorem run_cycle_blacklist_inv (cfg : Config) (gw : String → Bool) (s : String)
    (hb : s ∈ cfg.blacklist) :
    ∀ (ps : List Position) (st : BotState),
      countEv (isCloseOrderFor s) (run_cycle cfg gw st ps).events = 0 ∧
      (run_cycle cfg gw st ps).state.highest_profits s = st.highest_profits s ∧
      (run_cycle cfg gw st ps).state.current_tiers s = st.current_tiers s ∧
      countEv (isNoteFor s) (run_cycle cfg gw st ps).events +
        noteBudget (run_cycle cfg gw st ps).state s ≤ noteBudget st s
  | [], st => by simp [run_cycle, countEv]
  | p :: rest, st => by
    obtain ⟨g1, g2, g3, g4⟩ := process_blacklist_inv cfg gw st p s hb
    cases herr : (process_position cfg gw st p).err with
    | some e =>
      simp only [run_cycle, herr]
      exact ⟨g1, g2, g3, g4⟩
    | none =>
      obtain ⟨r1, r2, r3, r4⟩ := run_cycle_blacklist_inv cfg gw s hb rest
        (process_position cfg gw st p).state
      simp only [run_cycle, herr]
      refine ⟨?_, r2.trans g2, r3.trans g3, ?_⟩
      · simp only [countEv, List.countP_append] at g1 r1 ⊢
        omega
      · simp only [countEv, List.countP_append] at g4 r4 ⊢
        omega

theorem schedule_blacklist_inv (cfg : Config) (s : String) (hb : s ∈ cfg.blacklist) :
    ∀ (cycles : List ((String → Bool) × List Position)) (st : BotState),
      countEv (isCloseOrderFor s) (schedule_task cfg st cycles).events = 0 ∧
      (schedule_task cfg st cycles).state.highest_profits s = st.highest_profits s ∧
      (schedule_task cfg st cycles).state.current_tiers s = st.current_tiers s ∧
      countEv (isNoteFor s) (schedule_task cfg st cycles).events +
        noteBudget (schedule_task cfg st cycles).state s ≤ noteBudget st s
  | [], st => by simp [schedule_task, countEv]
  | c :: rest, st => by
    obtain ⟨g1, g2, g3, g4⟩ := run_cycle_blacklist_inv cfg c.1 s hb c.2 st
    cases herr : (run_cycle cfg c.1 st c.2).err with
    | some e =>
      simp only [schedule_task, herr]
      exact ⟨g1, g2, g3, g4⟩
    | none =>
      obtain ⟨r1, r2, r3, r4⟩ := schedule_blacklist_inv cfg s hb rest
        (run_cycle cfg c.1 st c.2).state
      simp only [schedule_task, herr]
      refine ⟨?_, r2.trans g2, r3.trans g3, ?_⟩
      · simp only [countEv, List.countP_append] at g1 r1 ⊢
        omega
      · simp only [countEv, List.countP_append] at g4 r4 ⊢
        omega

/-- C8: over an entire run from the initial state, a blacklisted symbol
never gets a close order, never gets RiskState (no stored peak or tier),
and receives at most one detection notification. -/
theorem blacklisted_never_closed_single_note (cfg : Config) (s : String)
    (hb : s ∈ cfg.blacklist)
    (cycles : List ((String → Bool) × List Position)) :
    countEv (isCloseOrderFor s) (schedule_task cfg initState cycles).events = 0 ∧
    (schedule_task cfg initState cycles).state.highest_profits s = Option.none ∧
    (schedule_task cfg initState cycles).state.current_tiers s = Option.none ∧
    countEv (isNoteFor s) (schedule_task cfg initState cycles).events ≤ 1 := by
  obtain ⟨h1, h2, h3, h4⟩ := schedule_blacklist_inv cfg s hb cycles initState
  have hbud : noteBudget initState s = 1 := rfl
  exact ⟨h1, h2, h3, by omega⟩

/-- C8, witness: a run of two cycles in which the blacklisted symbol
XRPUSDT is held (profitably) in both. -/
theorem blacklisted_never_closed_single_note_witness :
    countEv (isCloseOrderFor "XRPUSDT")
      (schedule_task cfgBlk initState
        [(gwT, [posBlk]), (gwT, [posBlk, posGood])]).events = 0 ∧
    (schedule_task cfgBlk initState
      [(gwT, [posBlk]), (gwT, [posBlk, posGood])]).state.highest_profits "XRPUSDT" =
      Option.none ∧
    (schedule_task cfgBlk initState
      [(gwT, [posBlk]), (gwT, [posBlk, posGood])]).state.current_tiers "XRPUSDT" =
      Option.none ∧
    countEv (isNoteFor "XRPUSDT")
      (schedule_task cfgBlk initState
        [(gwT, [posBlk]), (gwT, [posBlk, posGood])]).events ≤ 1 :=
  blacklisted_never_closed_single_note cfgBlk "XRPUSDT" (by decide)
    [(gwT, [posBlk]), (gwT, [posBlk, posGood])]

theorem after_profit_tier_count (cfg : Config) (gw : String → Bool) (st : BotState)
    (evs : List Event) (symbol : String) (amt : ℚ) (side : String) (profit : ℚ) :
    countEv (isTierCloseFor symbol)
        (after_profit cfg gw st evs symbol amt side profit).events =
      countEv (isTierCloseFor symbol) evs +
        (if tier_close_fires cfg
            (update_peak_tier cfg ((st.highest_profits symbol).getD 0) profit).2 profit
            (update_peak_tier cfg ((st.highest_profits symbol).getD 0) profit).1
          then 1 else 0) := by
  have hcc1 := (close_position_counts gw (peak_tier_state cfg st symbol profit) symbol
    |amt| side).2.1
  have hcc2 := (close_position_counts gw (peak_tier_state cfg st symbol profit) symbol
    |amt| (if side = "long" then "sell" else "buy")).2.1
  simp only [countEv] at hcc1 hcc2
  simp only [after_profit]
  split_ifs <;>
    simp_all [countEv, List.countP_append, isTierCloseFor]

theorem after_profit_stop_count (cfg : Config) (gw : String → Bool) (st : BotState)
    (evs : List Event) (symbol : String) (amt : ℚ) (side : String) (profit : ℚ) :
    countEv (isStopLossFor symbol)
        (after_profit cfg gw st evs symbol amt side profit).events =
      countEv (isStopLossFor symbol) evs +
        (if tier_close_fires cfg
            (update_peak_tier cfg ((st.highest_profits symbol).getD 0) profit).2 profit
            (update_peak_tier cfg ((st.highest_profits symbol).getD 0) profit).1
          then 0 else if profit ≤ -cfg.stop_loss_pct then 1 else 0) := by
  have hcc1 := (close_position_counts gw (peak_tier_state cfg st symbol profit) symbol
    |amt| side).2.2
  have hcc2 := (close_position_counts gw (peak_tier_state cfg st symbol profit) symbol
    |amt| (if side = "long" then "sell" else "buy")).2.2
  simp only [countEv] at hcc1 hcc2
  simp only [after_profit]
  split_ifs <;>
    simp_all [countEv, List.countP_append, isStopLossFor]

theorem after_profit_close_count (cfg : Config) (gw : String → Bool) (st : BotState)
    (evs : List Event) (symbol : String) (amt : ℚ) (side : String) (profit : ℚ) :
    countEv (isCloseOrderFor symbol)
        (after_profit cfg gw st evs symbol amt side profit).events =
      countEv (isCloseOrderFor symbol) evs +
        (if tier_close_fires cfg
            (update_peak_tier cfg ((st.highest_profits symbol).getD 0) profit).2 profit
            (update_peak_tier cfg ((st.highest_profits symbol).getD 0) profit).1
          then 1 else if profit ≤ -cfg.stop_loss_pct then 1 else 0) := by
  have hcc1 := (close_position_counts gw (peak_tier_state cfg st symbol profit) symbol
    |amt| side).1
  have hcc2 := (close_position_counts gw (peak_tier_state cfg st symbol profit) symbol
    |amt| (if side = "long" then "sell" else "buy")).1
  simp only [countEv] at hcc1 hcc2
  simp only [after_profit]
  split_ifs <;>
    simp_all [countEv, List.countP_append, isCloseOrderFor]

unseal Rat.mul Rat.add Rat.sub Rat.inv in
/-- C2, failing input: a held short position (entry 100, mark 120,
profit -20 percent) triggers the absolute stop-loss; line 206 passes
the already-inverted direction "buy" as the side argument of close_position,
and close_position maps any side other than "short" to a sell order, so
the submitted order direction is "sell" - not the inverse (buy) of the
held short side, which the claim requires.  The second conjunct shows
that close_position itself maps the held side "short" (as the tier
paths, lines 183/192/201, pass it) to the correct buy order. -/
theorem short_stop_loss_close_direction :
    (process_position cfg0 gwT initState posShort).events =
      [Event.firstDetect "ETHUSDT", Event.stopLossLog "ETHUSDT",
        Event.closeOrder "ETHUSDT" "sell" 5 "buy"] ∧
    (close_position gwT initState "ETHUSDT" 5 "short").2.2 =
      [Event.closeOrder "ETHUSDT" "buy" 5 "short"] ∧
    ("sell" : String) ≠ "buy" := by decide

unseal Rat.mul Rat.add Rat.sub Rat.inv in
/-- C6, failing input: a snapshot holding a position with entry price 0
followed by a healthy position.  The profit division raises
(ZeroDivisionError); the error escapes the per-position loop, so the
second symbol is never evaluated in that cycle, and the catch-all of
the scheduler terminates the process, so the next cycle never runs either -
instead of the malformed symbol being skipped with a warning.  The last
two conjuncts show the contrasting handled case: an undefined side is
skipped with only a warning and no error. -/
theorem zero_entry_price_aborts_cycle :
    (run_cycle cfg0 gwT initState [posZero, posGood]).err =
      some "ZeroDivisionError" ∧
    (run_cycle cfg0 gwT initState [posZero, posGood]).events =
      [Event.firstDetect "AAAUSDT"] ∧
    (run_cycle cfg0 gwT initState
      [posZero, posGood]).state.detected_positions "BBBUSDT" = false ∧
    (schedule_task cfg0 initState
      [(gwT, [posZero, posGood]), (gwT, [posGood])]).state.detected_positions
      "BBBUSDT" = false ∧
    (process_position cfg0 gwT initState posNoSide).err = Option.none ∧
    (process_position cfg0 gwT initState posNoSide).events =
      [Event.warnSideNone "CCCUSDT"] := by decide

/-- C7: when the close order submission succeeds, close_position
returns True and removes the stored peak, tier and detected marker of
the symbol, leaving the records of every other symbol untouched; on failure,
it returns False and the state is returned entirely unchanged.
Re-onboarding: freshInit (the first-detection initialisation the
monitor runs for a symbol without the detected marker) stores peak 0,
tier none and the marker; and processing an undetected, non-blacklisted
position emits the first-detection notification and, for a long side
with nonzero entry, runs the exit evaluation from that fresh state. -/
theorem close_success_clears_failure_preserves (cfg : Config) (gw : String → Bool)
    (st : BotState) (symbol : String) (amount : ℚ) (side : String) :
    (gw symbol = true →
      (close_position gw st symbol amount side).1 = true ∧
      (close_position gw st symbol amount side).2.1.highest_profits symbol =
        Option.none ∧
      (close_position gw st symbol amount side).2.1.current_tiers symbol =
        Option.none ∧
      (close_position gw st symbol amount side).2.1.detected_positions symbol =
        false ∧
      (∀ s, s ≠ symbol →
        (close_position gw st symbol amount side).2.1.highest_profits s =
          st.highest_profits s ∧
        (close_position gw st symbol amount side).2.1.current_tiers s =
          st.current_tiers s ∧
        (close_position gw st symbol amount side).2.1.detected_positions s =
          st.detected_positions s)) ∧
    (gw symbol = false →
      (close_position gw st symbol amount side).1 = false ∧
      (close_position gw st symbol amount side).2.1 = st) ∧
    ((freshInit st symbol).highest_profits symbol = some 0 ∧
      (freshInit st symbol).current_tiers symbol = some Tier.none ∧
      (freshInit st symbol).detected_positions symbol = true) ∧
    (∀ (p : Position) (sd : String), p.symbol = symbol → p.side = some sd →
      st.detected_positions symbol = false → symbol ∉ cfg.blacklist →
      Event.firstDetect symbol ∈ (process_position cfg gw st p).events ∧
      (py_lower sd = "long" → p.entryPrice ≠ 0 →
        process_position cfg gw st p =
          after_profit cfg gw (freshInit st symbol) [Event.firstDetect symbol]
            symbol p.positionAmt "long"
            ((p.markPrice - p.entryPrice) / p.entryPrice * 100))) := by
  refine ⟨?_, ?_, ?_, ?_⟩
  · intro hgw
    refine ⟨?_, ?_, ?_, ?_, ?_⟩ <;>
      first
        | (intro s hs; simp [close_position, hgw, popKey, setFlag, hs])
        | simp [close_position, hgw, popKey, setFlag]
  · intro hgw
    simp [close_position, hgw]
  · simp [freshInit, setOpt, setFlag]
  · intro p sd hsym hside hdet hbl
    subst hsym
    have hdet2 : ¬(st.detected_positions p.symbol = true) := by simp [hdet]
    constructor
    · simp only [process_position, hside]
      rw [if_neg hbl, if_neg hdet2, if_neg hdet2]
      split_ifs with hls hz <;>
        first
          | exact after_profit_keeps_events cfg gw (freshInit st p.symbol)
              [Event.firstDetect p.symbol] p.symbol p.positionAmt (py_lower sd) _
              (Event.firstDetect p.symbol) (List.mem_cons_self _ _)
          | exact List.mem_cons_self _ _
    · intro hlow hz
      simp only [process_position, hside]
      rw [if_neg hbl, if_neg hdet2, if_neg hdet2]
      simp [hlow, hz]

/-- C7, witness: success clears the BTCUSDT record in stSample; failure
leaves stSample untouched; a rediscovered (undetected) BTCUSDT position
emits the first-detection notification. -/
theorem close_success_clears_failure_preserves_witness :
    (close_position gwT stSample "BTCUSDT" 7 "long").2.1.highest_profits "BTCUSDT" =
      Option.none ∧
    (close_position gwF stSample "BTCUSDT" 7 "long").2.1 = stSample ∧
    Event.firstDetect "BTCUSDT" ∈
      (process_position cfgHold gwT initState posLoss).events :=
  ⟨((close_success_clears_failure_preserves cfgHold gwT stSample "BTCUSDT" 7
      "long").1 rfl).2.1,
    ((close_success_clears_failure_preserves cfgHold gwF stSample "BTCUSDT" 7
      "long").2.1 rfl).2,
    ((close_success_clears_failure_preserves cfgHold gwT initState "BTCUSDT" 1
      "long").2.2.2 posLoss "long" rfl rfl rfl (by decide)).1⟩

/-- C3: writing hp for the updated peak and tier for its
classification, the tier-triggered close of lines 179-202 happens in
lowProtect exactly when profit is at most the absolute floor
low_trail_stop_loss_pct; in firstTrail exactly when profit is at most
hp * (1 - trail_stop_loss_pct); in secondTrail exactly when profit is
at most hp * (1 - higher_trail_stop_loss_pct); and never in tier
none. -/
theorem tier_exit_rules (cfg : Config) (gw : String → Bool) (st : BotState)
    (symbol : String) (amt : ℚ) (side : String) (profit h0 hp : ℚ) (tier : Tier)
    (hh0 : h0 = (st.highest_profits symbol).getD 0)
    (hhp : hp = (update_peak_tier cfg h0 profit).1)
    (htier : tier = (update_peak_tier cfg h0 profit).2) :
    (tier = Tier.lowProtect →
      (0 < countEv (isTierCloseFor symbol)
          (after_profit cfg gw st [] symbol amt side profit).events ↔
        profit ≤ cfg.low_trail_stop_loss_pct)) ∧
    (tier = Tier.firstTrail →
      (0 < countEv (isTierCloseFor symbol)
          (after_profit cfg gw st [] symbol amt side profit).events ↔
        profit ≤ hp * (1 - cfg.trail_stop_loss_pct))) ∧
    (tier = Tier.secondTrail →
      (0 < countEv (isTierCloseFor symbol)
          (after_profit cfg gw st [] symbol amt side profit).events ↔
        profit ≤ hp * (1 - cfg.higher_trail_stop_loss_pct))) ∧
    (tier = Tier.none →
      countEv (isTierCloseFor symbol)
        (after_profit cfg gw st [] symbol amt side profit).events = 0) := by
  subst hh0
  subst hhp
  subst htier
  have hcount := after_profit_tier_count cfg gw st [] symbol amt side profit
  simp only [countEv, List.countP_nil, Nat.zero_add] at hcount
  simp only [countEv] at hcount ⊢
  refine ⟨fun ht => ?_, fun ht => ?_, fun ht => ?_, fun ht => ?_⟩ <;>
    rw [hcount, ht] <;>
    simp only [tier_close_fires, decide_eq_true_eq] <;>
    first
      | simp
      | (split_ifs with hc <;> simp [hc])

/-- C3, witness: stSample holds BTCUSDT at peak 7 (tier firstTrail
under cfg0); at current profit 4 the tier exit fires exactly when
4 <= 7 * (1 - 1/2). -/
theorem tier_exit_rules_witness :
    0 < countEv (isTierCloseFor "BTCUSDT")
        (after_profit cfg0 gwT stSample [] "BTCUSDT" 1 "long" 4).events ↔
      (4 : ℚ) ≤ 7 * (1 - cfg0.trail_stop_loss_pct) :=
  (tier_exit_rules cfg0 gwT stSample "BTCUSDT" 1 "long" 4 7 7
      (update_peak_tier cfg0 7 4).2 (by decide) (by decide) rfl).2.1 (by decide)

theorem process_main_eq (cfg : Config) (gw : String → Bool) (st : BotState)
    (p : Position) (sd : String) (hside : p.side = some sd)
    (hls : py_lower sd = "long" ∨ py_lower sd = "short")
    (hbl : p.symbol ∉ cfg.blacklist) (hz : p.entryPrice ≠ 0) :
    process_position cfg gw st p =
      after_profit cfg gw
        (if st.detected_positions p.symbol then st else freshInit st p.symbol)
        (if st.detected_positions p.symbol then [] else [Event.firstDetect p.symbol])
        p.symbol p.positionAmt (py_lower sd)
        (if py_lower sd = "long" then
          (p.markPrice - p.entryPrice) / p.entryPrice * 100
         else (p.entryPrice - p.markPrice) / p.entryPrice * 100) := by
  simp only [process_position, hside]
  rw [if_neg hbl, if_pos hls, if_neg hz]

/-- C4: at most one close order is issued per position per cycle.  On
the main monitoring path (well-formed, non-blacklisted position), when
the tier-based check fires, the close is the tier close and the
absolute stop-loss is never even logged (the loop continues past it);
when the tier check does not fire, the stop-loss close happens exactly
when profit <= -stop_loss_pct, whatever the tier. -/
theorem tier_check_first_single_close (cfg : Config) (gw : String → Bool)
    (st : BotState) (p : Position) :
    countEv (isCloseOrderFor p.symbol) (process_position cfg gw st p).events ≤ 1 ∧
    (∀ (sd : String) (profit h0 : ℚ),
      p.side = some sd →
      (py_lower sd = "long" ∨ py_lower sd = "short") →
      p.symbol ∉ cfg.blacklist →
      p.entryPrice ≠ 0 →
      profit = (if py_lower sd = "long" then
          (p.markPrice - p.entryPrice) / p.entryPrice * 100
        else (p.entryPrice - p.markPrice) / p.entryPrice * 100) →
      h0 = (if st.detected_positions p.symbol then
          (st.highest_profits p.symbol).getD 0 else 0) →
      ((tier_close_fires cfg (update_peak_tier cfg h0 profit).2 profit
          (update_peak_tier cfg h0 profit).1 = true →
        countEv (isStopLossFor p.symbol)
          (process_position cfg gw st p).events = 0 ∧
        countEv (isCloseOrderFor p.symbol)
          (process_position cfg gw st p).events = 1) ∧
      (tier_close_fires cfg (update_peak_tier cfg h0 profit).2 profit
          (update_peak_tier cfg h0 profit).1 = false →
        countEv (isStopLossFor p.symbol)
          (process_position cfg gw st p).events =
            (if profit ≤ -cfg.stop_loss_pct then 1 else 0) ∧
        countEv (isCloseOrderFor p.symbol)
          (process_position cfg gw st p).events =
            (if profit ≤ -cfg.stop_loss_pct then 1 else 0)))) := by
  constructor
  · cases hside : p.side with
    | none => simp [process_position, hside, countEv, isCloseOrderFor]
    | some sd =>
      by_cases hbl : p.symbol ∈ cfg.blacklist
      · by_cases hdet : st.detected_positions p.symbol = true <;>
          simp [process_position, hside, hbl, hdet, countEv, isCloseOrderFor]
      · by_cases hls : py_lower sd = "long" ∨ py_lower sd = "short"
        · by_cases hz : p.entryPrice = 0
          · simp only [process_position, hside]
            rw [if_neg hbl, if_pos hls, if_pos hz]
            split_ifs <;> simp [countEv, isCloseOrderFor]
          · rw [process_main_eq cfg gw st p sd hside hls hbl hz,
              after_profit_close_count]
            have hevs : countEv (isCloseOrderFor p.symbol)
                (if st.detected_positions p.symbol then ([] : List Event)
                 else [Event.firstDetect p.symbol]) = 0 := by
              split_ifs <;> simp [countEv, isCloseOrderFor]
            rw [hevs]
            split_ifs <;> simp
        · simp only [process_position, hside]
          rw [if_neg hbl, if_neg hls]
          split_ifs <;> simp [countEv, isCloseOrderFor]
  · intro sd profit h0 hside hls hbl hz hprof hh0
    subst hprof
    subst hh0
    rw [process_main_eq cfg gw st p sd hside hls hbl hz]
    have hbridge : (if st.detected_positions p.symbol then
        (st.highest_profits p.symbol).getD 0 else 0) =
        ((if st.detected_positions p.symbol then st
          else freshInit st p.symbol).highest_profits p.symbol).getD 0 := by
      split_ifs <;> simp [freshInit, setOpt]
    rw [hbridge]
    have hstop := after_profit_stop_count cfg gw
      (if st.detected_positions p.symbol then st else freshInit st p.symbol)
      (if st.detected_positions p.symbol then ([] : List Event)
        else [Event.firstDetect p.symbol])
      p.symbol p.positionAmt (py_lower sd)
      (if py_lower sd = "long" then
          (p.markPrice - p.entryPrice) / p.entryPrice * 100
        else (p.entryPrice - p.markPrice) / p.entryPrice * 100)
    have hclose := after_profit_close_count cfg gw
      (if st.detected_positions p.symbol then st else freshInit st p.symbol)
      (if st.detected_positions p.symbol then ([] : List Event)
        else [Event.firstDetect p.symbol])
      p.symbol p.positionAmt (py_lower sd)
      (if py_lower sd = "long" then
          (p.markPrice - p.entryPrice) / p.entryPrice * 100
        else (p.entryPrice - p.markPrice) / p.entryPrice * 100)
    have he1 : countEv (isStopLossFor p.symbol)
        (if st.detected_positions p.symbol then ([] : List Event)
         else [Event.firstDetect p.symbol]) = 0 := by
      split_ifs <;> simp [countEv, isStopLossFor]
    have he2 : countEv (isCloseOrderFor p.symbol)
        (if st.detected_positions p.symbol then ([] : List Event)
         else [Event.firstDetect p.symbol]) = 0 := by
      split_ifs <;> simp [countEv, isCloseOrderFor]
    rw [he1, Nat.zero_add] at hstop
    rw [he2, Nat.zero_add] at hclose
    exact ⟨fun hf => by rw [hstop, hclose, hf]; simp,
      fun hf => by rw [hstop, hclose, hf]; simp⟩

unseal Rat.mul Rat.add Rat.sub Rat.inv in
/-- C4, witness: BTCUSDT tracked at peak 7 (firstTrail) drops to
profit -10, breaching both the trailing floor 3.5 and the absolute
stop-loss -3; only the tier close is issued and the stop-loss path is
never reached. -/
theorem tier_check_first_single_close_witness :
    countEv (isStopLossFor "BTCUSDT")
      (process_position cfg0 gwT stSample posDrop).events = 0 ∧
    countEv (isCloseOrderFor "BTCUSDT")
      (process_position cfg0 gwT stSample posDrop).events = 1 :=
  ((tier_check_first_single_close cfg0 gwT stSample posDrop).2 "long" (-10) 7
    rfl (by decide) (by decide) (by decide) (by decide) (by decide)).1 (by decide)
